import Mathlib

/-!
Shallow embedding of `src/statusmake.js`, a health-check aggregation module.

Modelling conventions:
* JavaScript numbers are modelled as exact rationals (`ℚ`); `Math.round` is
  `⌊x + 1/2⌋`, which agrees with JS rounding (`Math.round` rounds half toward
  positive infinity).
* A settled bluebird promise is modelled as `Except JsErr α`: `.ok` for a
  fulfilled promise, `.error` for a rejected one.  `Promise.map` over a list is
  `promiseMap` below; rejection of any element rejects the whole map (the model
  determinises "first rejection in time" to first rejection in list order —
  none of the properties below depend on which rejection wins).
* The ambient host state read by `os`/`process`/`diskspace` calls is a
  `HostSnapshot` record passed explicitly; the network is a function from URL
  to the outcome of the HTTP request.
-/

/-- A JavaScript `Error` value, reduced to its `message` (the only field the
module reads). -/
structure JsErr where
  message : String
deriving DecidableEq, Repr

/-- Outcome of an HTTP request made by the `request` library: either the
callback receives a truthy `error` (timeout, DNS failure, connection error),
or a response with a status code. -/
inductive HttpOutcome where
  | error (e : JsErr)
  | response (statusCode : Nat)
deriving DecidableEq, Repr

/-- The network environment: what the `request` library reports for each URL
during this handler invocation. -/
abbrev Net := String → HttpOutcome

/-- From source lines 17-24.  `Promise.promisify` wraps the node-style
callback: a call `callback(error, false)` with a truthy `error` REJECTS the
resulting promise with `error` (the second argument `false` is discarded by
bluebird); `callback(null, v)` fulfills it with `v`.  Hence a transport error
rejects, and otherwise the result is `statusCode === 200`. -/
def ensureHttp200 (net : Net) (url : String) : Except JsErr Bool :=
  match net url with
  | .error e => .error e
  | .response statusCode => .ok (statusCode == 200)

/-- An API check spec `{ name, url }`. -/
structure ApiSpec where
  name : String
  url : String
deriving DecidableEq, Repr

/-- A function check spec `{ name, fn }`.  `fn` may return/resolve a boolean
or throw/reject (`.error`). -/
structure FnSpec where
  name : String
  fn : Unit → Except JsErr Bool

/-- A per-check result `{ name, active }`. -/
structure CheckResult where
  name : String
  active : Bool
deriving DecidableEq, Repr

/-- A category report `{ status, services }` as built by `statusReply`. -/
structure CategoryReport where
  status : Bool
  services : List CheckResult
deriving DecidableEq, Repr

/-- `serviceObj.name` access, shared by the two spec shapes. -/
class HasName (α : Type) where
  name : α → String

instance : HasName ApiSpec where
  name := ApiSpec.name

instance : HasName FnSpec where
  name := FnSpec.name

/-- From source lines 55-57: `_.reduce(statusFlags, (flag, n) => n && flag, true)`. -/
def allOk (statusFlags : List Bool) : Bool :=
  statusFlags.foldl (fun flag n => n && flag) true

/-- From source lines 59-72.  `_.zip` followed by pushing
`{ name: row[0].name, active: row[1] }` for each row.  (lodash `_.zip` pads
the shorter list with `undefined`; both call sites in the module pass lists of
equal length — `Promise.map` preserves length — for which `List.zip` agrees.) -/
def statusReply {α : Type} [HasName α] (serviceList : List α)
    (statusFlags : List Bool) : CategoryReport :=
  { status := allOk statusFlags
  , services := (serviceList.zip statusFlags).map fun row =>
      { name := HasName.name row.1, active := row.2 } }

/-- Bluebird `Promise.map` over a settled model: apply `f` to every element;
if every element fulfills, fulfill with the list of results, else reject. -/
def promiseMap {α β : Type} (f : α → Except JsErr β) : List α → Except JsErr (List β)
  | [] => .ok []
  | x :: xs =>
    match f x, promiseMap f xs with
    | .ok b, .ok bs => .ok (b :: bs)
    | .error e, _ => .error e
    | .ok _, .error e => .error e

/-- The value a category contributes to the composite report: either the
bare empty array `[]` (when the category's input was absent from the
InspectionSet, via `Promise.resolve([])`), or a `statusReply` report. -/
inductive CategoryValue where
  | emptyArr
  | report (r : CategoryReport)
deriving DecidableEq, Repr

/-- From source lines 74-82.  `if (apis)` — an absent (`undefined`) field is
falsy, any supplied array (empty included) is truthy. -/
def executeApis (net : Net) (apis : Option (List ApiSpec)) : Except JsErr CategoryValue :=
  match apis with
  | some list =>
    match promiseMap (fun api => ensureHttp200 net api.url) list with
    | .ok flags => .ok (.report (statusReply list flags))
    | .error e => .error e
  | none => .ok .emptyArr

/-- From source lines 84-93: `serviceObj.fn.call(null)` inside `Promise.map`,
with no error handling at this layer. -/
def executeFunctions (functions : Option (List FnSpec)) : Except JsErr CategoryValue :=
  match functions with
  | some list =>
    match promiseMap (fun serviceObj => serviceObj.fn ()) list with
    | .ok flags => .ok (.report (statusReply list flags))
    | .error e => .error e
  | none => .ok .emptyArr

/-- `Math.round(x)` on exact rationals: floor of `x + 1/2` (JS rounds half
toward positive infinity). -/
def jsMathRound (x : ℚ) : ℚ := ((⌊x + 1 / 2⌋ : ℤ) : ℚ)

/-- The module's 2-decimal rounding idiom `Math.round(val * 100) / 100`. -/
def round2 (x : ℚ) : ℚ := jsMathRound (x * 100) / 100

/-- A snapshot of the host values the collector reads through `process`, `os`
and `diskspace`.  `heapUsed` is the `heapUsed` field of
`process.memoryUsage()` (present in the runtime record, though the code reads
`heapTotal`); `disk` is the settled result of `diskspace.checkAsync('/')`,
carrying `(used, total)` bytes on success. -/
structure HostSnapshot where
  heapUsed : ℚ
  heapTotal : ℚ
  totalmem : ℚ
  uptimeSeconds : ℚ
  loadavg1 : ℚ
  loadavg5 : ℚ
  numCpu : ℚ
  hostname : String
  freemem : ℚ
  disk : Except JsErr (ℚ × ℚ)

/-- The HostMetrics record assembled by `healthCheckServer`. -/
structure HostMetrics where
  process_memory_used_percent : ℚ
  uptime_minutes : ℚ
  cpu_one_minute_average_percent : ℚ
  cpu_five_minute_average_percent : ℚ
  hostname : String
  os_free_memory_mb : ℚ
  disk_root_use_percent : ℚ
deriving DecidableEq, Repr

/-- From source lines 26-30: `(load / os.cpus().length) * 100` rounded. -/
def getCpuPercent (s : HostSnapshot) (load : ℚ) : ℚ :=
  round2 (load / s.numCpu * 100)

/-- From source lines 32-53.  Every field except `disk_root_use_percent` is
computed synchronously; the disk percentage comes from the
`diskspace.checkAsync('/')` promise, whose `.catch` turns any failure into the
sentinel `-1`, so the collector's promise always fulfills (a total function
here). -/
def healthCheckServer (s : HostSnapshot) : HostMetrics :=
  { process_memory_used_percent := round2 (s.heapTotal / s.totalmem * 100)
  , uptime_minutes := round2 (s.uptimeSeconds / 60)
  , cpu_one_minute_average_percent := getCpuPercent s s.loadavg1
  , cpu_five_minute_average_percent := getCpuPercent s s.loadavg5
  , hostname := s.hostname
  , os_free_memory_mb := round2 (s.freemem / (1024 * 1024))
  , disk_root_use_percent :=
      match s.disk with
      | .ok data => round2 (data.1 / data.2 * 100)
      | .error _ => -1 }

/-- The caller-supplied `inspectionSet`: either field may be absent. -/
structure InspectionSet where
  apis : Option (List ApiSpec)
  functions : Option (List FnSpec)

/-- The composite report assembled on `result`. -/
structure CompositeReport where
  server : HostMetrics
  apis : CategoryValue
  functions : CategoryValue

/-- The `{ status: 200, data: result }` envelope returned by `orchestrate`. -/
structure Envelope where
  status : Nat
  data : CompositeReport

/-- From source lines 95-132.  `Promise.join` of the three branch promises:
it rejects iff some branch rejects (`healthCheckServer` never does), else the
envelope is built with `responseStatus` fixed at 200 (the 500-on-bad-check
branch is commented out in the source). -/
def orchestrate (net : Net) (s : HostSnapshot) (inspectionSet : InspectionSet) :
    Except JsErr Envelope :=
  match executeApis net inspectionSet.apis with
  | .error e => .error e
  | .ok apiStatus =>
    match executeFunctions inspectionSet.functions with
    | .error e => .error e
    | .ok funcStatus =>
      .ok { status := 200
          , data := { server := healthCheckServer s
                    , apis := apiStatus
                    , functions := funcStatus } }

/-- The body of the one `res.send` a handler invocation performs: either the
full `info` envelope, or the degraded `{ status: 200, data: { message } }`
shape built in both catch blocks. -/
inductive Body where
  | envelope (e : Envelope)
  | degraded (status : Nat) (message : String)

/-- One `res.send(httpStatus, body)` call. -/
structure Send where
  httpStatus : Nat
  body : Body

/-- How the handler body (source lines 135-152) reaches `orchestrate`: the
call may throw synchronously (caught by the surrounding `try`), or return a
promise that settles. -/
inductive OrchOutcome where
  | syncThrow (e : JsErr)
  | promise (r : Except JsErr Envelope)

/-- From source lines 134-153, the handler's response as a function of how the
`orchestrate(inspectionSet)` call went: on fulfillment
`res.send(info.status, info)`; on rejection the `.catch` sends
`res.send(200, { status: 200, data: { message: err.message } })`; on a
synchronous throw the `catch(e)` block sends the same degraded shape. -/
def handlerRespond (o : OrchOutcome) : Send :=
  match o with
  | .promise (.ok info) => { httpStatus := info.status, body := .envelope info }
  | .promise (.error err) => { httpStatus := 200, body := .degraded 200 err.message }
  | .syncThrow e => { httpStatus := 200, body := .degraded 200 e.message }

/-- The route handler `getHealthCheck(inspectionSet)` produces, observed at
one invocation under network `net` and host snapshot `s`: the single
`res.send` it performs. -/
def getHealthCheck (net : Net) (s : HostSnapshot) (inspectionSet : InspectionSet) : Send :=
  handlerRespond (.promise (orchestrate net s inspectionSet))

/-- A JavaScript function value registerable as an express route handler.  In
this module only two shapes occur: the exported factory `getHealthCheck`
itself, and the inner closures it returns (each closing over an
`InspectionSet`). -/
inductive RouteHandlerVal where
  | factoryVal
  | closureVal (inspectionSet : InspectionSet)

/-- Express dispatch: call the registered function with `(req, res, next)` and
record the `res.send` calls it performs.  Calling the factory binds `req` to
its `inspectionSet` parameter and evaluates its body — a single `return
function(req, res, next) {...}` statement — so it performs no send and its
returned closure is discarded by express.  Calling a closure runs the handler
body, which performs exactly one send. -/
def invokeHandler (net : Net) (s : HostSnapshot) : RouteHandlerVal → List Send
  | .factoryVal => []
  | .closureVal inspectionSet => [getHealthCheck net s inspectionSet]

/-- A minimal express server model: the list of registered GET routes. -/
structure Server where
  routes : List (String × RouteHandlerVal)

/-- `server.get(routeURI, handler)`. -/
def Server.get (server : Server) (routeURI : String) (h : RouteHandlerVal) : Server :=
  { routes := server.routes ++ [(routeURI, h)] }

/-- From source lines 159-161: `server.get(routeURI, getHealthCheck)` — the
factory function itself is registered, not a handler built from an
InspectionSet. -/
def setupEndpoints (server : Server) (routeURI : String) : Server :=
  server.get routeURI .factoryVal

/-- Formula read off the spec's words: "(process heap used / total system
memory) × 100, rounded to 2 decimals". -/
def specMemoryUsedPercent (s : HostSnapshot) : ℚ :=
  round2 (s.heapUsed / s.totalmem * 100)

/-! ### Shared concrete inputs and helper lemmas -/

/-- The error the `request` library reports on a 10s timeout. -/
def timeoutErr : JsErr := { message := "ETIMEDOUT" }

/-- A network where every request fails with a timeout. -/
def timeoutNet : Net := fun _ => .error timeoutErr

/-- The API spec from the spec's end-to-end scenario. -/
def svcA : ApiSpec := { name := "svc-a", url := "http://x/health" }

/-- A concrete host snapshot whose disk query fails. -/
def snapIdle : HostSnapshot :=
  { heapUsed := 0, heapTotal := 0, totalmem := 1, uptimeSeconds := 0
  , loadavg1 := 0, loadavg5 := 0, numCpu := 1, hostname := "host"
  , freemem := 0, disk := .error { message := "nodisk" } }

theorem allOk_foldl (acc : Bool) (l : List Bool) :
    l.foldl (fun flag n => n && flag) acc = (acc && l.all id) := by
  induction l generalizing acc with
  | nil => simp [allOk]
  | cons b t ih =>
    rw [List.foldl_cons, ih]
    cases acc <;> cases b <;> simp

theorem allOk_eq_all (l : List Bool) : allOk l = l.all id := by
  unfold allOk
  rw [allOk_foldl]
  simp

theorem zip_getElem? {α β : Type} (as : List α) (bs : List β) (i : Nat) :
    (as.zip bs)[i]? =
      (as[i]?).bind fun a => (bs[i]?).map fun b => (a, b) := by
  induction as generalizing bs i with
  | nil => simp
  | cons a as ih =>
    cases bs with
    | nil => simp
    | cons b bs =>
      cases i with
      | zero => simp [List.zip_cons_cons]
      | succ n => simpa [List.zip_cons_cons] using ih bs n

theorem orchestrate_ok_status (net : Net) (s : HostSnapshot)
    (inspectionSet : InspectionSet) (env : Envelope)
    (h : orchestrate net s inspectionSet = .ok env) : env.status = 200 := by
  unfold orchestrate at h
  cases ha : executeApis net inspectionSet.apis with
  | error e => rw [ha] at h; exact absurd h (by simp)
  | ok apiStatus =>
    rw [ha] at h
    cases hf : executeFunctions inspectionSet.functions with
    | error e => rw [hf] at h; exact absurd h (by simp)
    | ok funcStatus =>
      rw [hf] at h
      cases h
      rfl

theorem promiseMap_error_of_mem {α β : Type} (f : α → Except JsErr β)
    (l : List α) (x : α) (e : JsErr) (hm : x ∈ l) (hx : f x = .error e) :
    ∃ e2, promiseMap f l = .error e2 := by
  induction l with
  | nil => cases hm
  | cons y ys ih =>
    cases hm with
    | head => exact ⟨e, by simp [promiseMap, hx]⟩
    | tail _ hm2 =>
      obtain ⟨e2, he2⟩ := ih hm2
      cases hfy : f y with
      | error e3 => exact ⟨e3, by simp [promiseMap, hfy]⟩
      | ok b => exact ⟨e2, by simp [promiseMap, hfy, he2]⟩

/-- `true` iff the settled promise rejected. -/
def isRejected {α : Type} : Except JsErr α → Bool
  | .error _ => true
  | .ok _ => false

/-! ### Claim theorems -/

/-- C1: the claim says an endpoint probe yields `false` on any transport
error and never propagates a rejection; in the code the promisified callback
is invoked as `callback(error, false)`, which bluebird interprets as a
REJECTION with `error` — so a timeout rejects the probe promise (and the
`Promise.map` in `executeApis` with it) instead of resolving `false`.  The
non-error half of the claim does hold: with a response, the outcome is the
boolean `statusCode === 200`. -/
theorem c1_transport_error_rejects_probe :
    ensureHttp200 timeoutNet "http://x/health" = .error timeoutErr ∧
    executeApis timeoutNet (some [svcA]) = .error timeoutErr ∧
    ensureHttp200 (fun _ => .response 503) "http://x/health" = .ok false ∧
    ensureHttp200 (fun _ => .response 200) "http://x/health" = .ok true :=
  ⟨rfl, rfl, rfl, rfl⟩

/-- C2: the route handler's single `res.send` always carries HTTP status
200 — when orchestration fulfills (whether all checks passed or some failed),
when the orchestration promise rejects, and when the `orchestrate` call throws
synchronously; in the two failure cases the body is the degraded
`{ status: 200, data: { message } }` payload. -/
theorem c2_handler_always_sends_200 :
    (∀ (net : Net) (s : HostSnapshot) (inspectionSet : InspectionSet),
      (getHealthCheck net s inspectionSet).httpStatus = 200) ∧
    (∀ e : JsErr, handlerRespond (.syncThrow e) =
      { httpStatus := 200, body := .degraded 200 e.message }) ∧
    (∀ e : JsErr, handlerRespond (.promise (.error e)) =
      { httpStatus := 200, body := .degraded 200 e.message }) := by
  refine ⟨?_, fun e => rfl, fun e => rfl⟩
  intro net s inspectionSet
  unfold getHealthCheck
  cases h : orchestrate net s inspectionSet with
  | ok env =>
    simp [handlerRespond, orchestrate_ok_status net s inspectionSet env h]
  | error e => rfl

/-- C3: the claim says that when the single API's request times out the body
still has `apis.status == false` and `apis.services[0].active == false`; in
the code the timeout rejects the probe promise, the rejection reaches the
route handler's `.catch`, and the response is the degraded
`{ status: 200, data: { message: "ETIMEDOUT" } }` body with no `apis` key at
all — though the HTTP status is indeed still 200. -/
theorem c3_timeout_degraded_response :
    getHealthCheck timeoutNet snapIdle { apis := some [svcA], functions := some [] } =
      { httpStatus := 200, body := .degraded 200 "ETIMEDOUT" } :=
  rfl

/-- C4: for equally long spec and outcome lists, the reducer's report has
exactly as many services as outcomes and its `status` is the AND-reduction of
all the flags (vacuously `true` for the empty list). -/
theorem c4_reducer_length_and_status {α : Type} [HasName α]
    (specs : List α) (flags : List Bool) (h : specs.length = flags.length) :
    (statusReply specs flags).services.length = flags.length ∧
    (statusReply specs flags).status = flags.all id := by
  constructor
  · simp [statusReply, h]
  · simpa [statusReply] using allOk_eq_all flags

/-- Two concrete API specs for witnesses. -/
def specsTwo : List ApiSpec := [{ name := "a", url := "u" }, { name := "b", url := "v" }]

/-- Two concrete outcomes for witnesses. -/
def flagsTwo : List Bool := [true, false]

theorem c4_witness :
    specsTwo.length = flagsTwo.length ∧
    ((statusReply specsTwo flagsTwo).services.length = flagsTwo.length ∧
      (statusReply specsTwo flagsTwo).status = flagsTwo.all id) :=
  ⟨by decide, c4_reducer_length_and_status specsTwo flagsTwo (by decide)⟩

/-- C5: for equally long spec and outcome lists the reducer's services list
has the specs' length, and at every index the service holds the i-th spec's
name paired with the i-th outcome (the model's outcome list is indexed in
spec order, as `Promise.map` fulfills with results in input order regardless
of completion order). -/
theorem c5_positional_correspondence {α : Type} [HasName α]
    (specs : List α) (flags : List Bool) (h : specs.length = flags.length)
    (i : Nat) :
    (statusReply specs flags).services.length = specs.length ∧
    (statusReply specs flags).services[i]? =
      (specs[i]?).bind fun sp => (flags[i]?).map fun b =>
        { name := HasName.name sp, active := b } := by
  constructor
  · simp [statusReply, h]
  · rw [statusReply]
    simp only [List.getElem?_map, zip_getElem?]
    cases specs[i]? <;> cases flags[i]? <;> simp

theorem c5_witness :
    specsTwo.length = flagsTwo.length ∧
    ((statusReply specsTwo flagsTwo).services.length = specsTwo.length ∧
      (statusReply specsTwo flagsTwo).services[1]? =
        (specsTwo[1]?).bind fun sp => (flagsTwo[1]?).map fun b =>
          { name := HasName.name sp, active := b }) :=
  ⟨by decide, c5_positional_correspondence specsTwo flagsTwo (by decide) 1⟩

/-- C6: when a category's input is absent from the InspectionSet, that
category's key in the composite report is assigned the bare empty array (no
`status`/`services` fields), and the other category is computed exactly as it
would be on its own — the absent category does not affect it. -/
theorem c6_absent_category_is_empty :
    (∀ net : Net, executeApis net none = .ok .emptyArr) ∧
    executeFunctions none = .ok .emptyArr ∧
    (∀ (net : Net) (s : HostSnapshot) (fns : Option (List FnSpec)),
      orchestrate net s { apis := none, functions := fns } =
        match executeFunctions fns with
        | .ok funcStatus =>
          .ok { status := 200
              , data := { server := healthCheckServer s
                        , apis := .emptyArr, functions := funcStatus } }
        | .error e => .error e) ∧
    (∀ (net : Net) (s : HostSnapshot) (apis : Option (List ApiSpec)),
      orchestrate net s { apis := apis, functions := none } =
        match executeApis net apis with
        | .ok apiStatus =>
          .ok { status := 200
              , data := { server := healthCheckServer s
                        , apis := apiStatus, functions := .emptyArr } }
        | .error e => .error e) := by
  refine ⟨fun net => rfl, rfl, ?_, ?_⟩
  · intro net s fns
    unfold orchestrate
    cases executeFunctions fns <;> rfl
  · intro net s apis
    unfold orchestrate
    cases executeApis net apis <;> rfl

/-- C7: the collector is a total function of the host snapshot — it never
raises — and whenever the disk query fails, `disk_root_use_percent` is the
sentinel `-1` while every other field is still populated with its computed
value. -/
theorem c7_disk_failure_sentinel (s : HostSnapshot) (e : JsErr)
    (h : s.disk = .error e) :
    healthCheckServer s =
      { process_memory_used_percent := round2 (s.heapTotal / s.totalmem * 100)
      , uptime_minutes := round2 (s.uptimeSeconds / 60)
      , cpu_one_minute_average_percent := round2 (s.loadavg1 / s.numCpu * 100)
      , cpu_five_minute_average_percent := round2 (s.loadavg5 / s.numCpu * 100)
      , hostname := s.hostname
      , os_free_memory_mb := round2 (s.freemem / (1024 * 1024))
      , disk_root_use_percent := -1 } := by
  unfold healthCheckServer getCpuPercent
  rw [h]

theorem c7_witness :
    snapIdle.disk = .error { message := "nodisk" } ∧
    (healthCheckServer snapIdle).disk_root_use_percent = -1 :=
  ⟨rfl, by rw [c7_disk_failure_sentinel snapIdle { message := "nodisk" } rfl]⟩

/-- C8: a function check whose `fn` throws or rejects makes the function
prober's `Promise.map` reject — the failure propagates to the orchestrator's
`Promise.join` (which rejects as well) instead of being converted to a
`false` outcome. -/
theorem c8_function_error_propagates (fns : List FnSpec) (sp : FnSpec)
    (e : JsErr) (hm : sp ∈ fns) (hx : sp.fn () = .error e)
    (net : Net) (s : HostSnapshot) :
    isRejected (executeFunctions (some fns)) = true ∧
    isRejected (orchestrate net s { apis := none, functions := some fns }) = true := by
  obtain ⟨e2, he2⟩ :=
    promiseMap_error_of_mem (fun serviceObj => serviceObj.fn ()) fns sp e hm hx
  constructor
  · simp [executeFunctions, he2, isRejected]
  · unfold orchestrate
    simp [executeApis, executeFunctions, he2, isRejected]

/-- The error a throwing function check produces. -/
def badFnErr : JsErr := { message := "boom failed" }

/-- A function check whose `fn` throws. -/
def badFn : FnSpec := { name := "boom", fn := fun _ => .error badFnErr }

/-- A network where every request succeeds with status 200. -/
def okNet : Net := fun _ => .response 200

theorem c8_witness :
    badFn ∈ [badFn] ∧ badFn.fn () = .error badFnErr ∧
    (isRejected (executeFunctions (some [badFn])) = true ∧
      isRejected (orchestrate okNet snapIdle
        { apis := none, functions := some [badFn] }) = true) :=
  ⟨List.mem_singleton.mpr rfl, rfl,
    c8_function_error_propagates [badFn] badFn badFnErr
      (List.mem_singleton.mpr rfl) rfl okNet snapIdle⟩

/-- The uptime formula read off the spec's words. -/
def specUptimeMinutes (s : HostSnapshot) : ℚ := round2 (s.uptimeSeconds / 60)

/-- The CPU-percent formula read off the spec's words. -/
def specCpuPercent (s : HostSnapshot) (load : ℚ) : ℚ :=
  round2 (load / s.numCpu * 100)

/-- The amended memory formula: heap TOTAL (what the code reads) over total
system memory. -/
def specMemoryHeapTotalPercent (s : HostSnapshot) : ℚ :=
  round2 (s.heapTotal / s.totalmem * 100)

/-- A snapshot where `heapUsed` and `heapTotal` differ, as they do in every
real process. -/
def snapMem : HostSnapshot :=
  { heapUsed := 1000, heapTotal := 2000, totalmem := 4000, uptimeSeconds := 90
  , loadavg1 := 1, loadavg5 := 2, numCpu := 4, hostname := "h"
  , freemem := 0, disk := .error { message := "x" } }

/-- C9 counterexample: the code computes the memory percentage from
`process.memoryUsage().heapTotal`, not from the heap USED as the claim says;
on a snapshot with heapUsed 1000, heapTotal 2000 and total memory 4000 the
code reports 50 where the claim's formula gives 25. -/
theorem c9_counterexample :
    ¬ ((healthCheckServer snapMem).process_memory_used_percent =
        specMemoryUsedPercent snapMem) := by
  norm_num [healthCheckServer, specMemoryUsedPercent, snapMem, round2, jsMathRound]

/-- C9 amended: with "process heap used" corrected to the heap TOTAL the code
reads, every formula of the claim holds: memory percent is
(heapTotal / total system memory) × 100 rounded to 2 decimals, uptime is
seconds / 60 rounded, and each CPU percent is (load average / number of
logical CPUs) × 100 rounded, for the 1- and 5-minute samples. -/
theorem c9_amended_metrics_formulas (s : HostSnapshot) :
    (healthCheckServer s).process_memory_used_percent =
      specMemoryHeapTotalPercent s ∧
    (healthCheckServer s).uptime_minutes = specUptimeMinutes s ∧
    (healthCheckServer s).cpu_one_minute_average_percent =
      specCpuPercent s s.loadavg1 ∧
    (healthCheckServer s).cpu_five_minute_average_percent =
      specCpuPercent s s.loadavg5 :=
  ⟨rfl, rfl, rfl, rfl⟩

/-- C10: `setupEndpoints` registers the factory function itself (not a
handler built from an InspectionSet); dispatching a request through such a
registration calls the factory with `(req, res, next)`, which only builds and
discards a closure and performs no `res.send` — whereas a closure built by
the factory would perform exactly one send. -/
theorem c10_setup_registers_factory :
    (∀ (server : Server) (routeURI : String),
      (setupEndpoints server routeURI).routes =
        server.routes ++ [(routeURI, RouteHandlerVal.factoryVal)]) ∧
    (∀ (net : Net) (s : HostSnapshot),
      invokeHandler net s RouteHandlerVal.factoryVal = []) ∧
    (∀ (net : Net) (s : HostSnapshot) (inspectionSet : InspectionSet),
      invokeHandler net s (RouteHandlerVal.closureVal inspectionSet) =
        [getHealthCheck net s inspectionSet]) :=
  ⟨fun _ _ => rfl, fun _ _ => rfl, fun _ _ _ => rfl⟩
